import Mathlib

/-!
Shallow embedding of the multi-scheme authentication layer of
`src/engine/apps/auth_token/auth.py`.

Conventions of the embedding:
* a Python `raise exceptions.AuthenticationFailed(msg)` (or one of the
  organization exceptions, or `exceptions.Throttled`) becomes
  `AuthResult.failed f` for the corresponding `AuthFailure` value;
* a Python `return None` from an `authenticate` method (the DRF signal that
  the scheme has no opinion and the next authentication class may run)
  becomes `AuthResult.noOpinion`;
* a successful `return principal, token` becomes `AuthResult.success (p, t)`;
* the token-store lookups (`Model.validate_token_string`), which live outside
  the excerpt, are passed in as functions `String → Option Token`: `none`
  models the `InvalidToken` exception, `some t` a found credential record;
* header and query-parameter access is modelled by passing the decoded header
  string (Django decodes an absent Authorization header to `""`) or an
  `Option String` for `.get` accesses;
* JSON headers are modelled at the parsed level: `Option Context` where
  `none` covers both an absent header and malformed JSON, because the code
  catches `(ValueError, TypeError)` in one branch for both.
-/

/-- Classified authentication failures raised by the schemes, mirroring the
exception types and messages in `auth.py`. -/
inductive AuthFailure where
  | authenticationFailed (detail : String)
  | organizationMoved (org_id : Nat)
  | organizationDeleted (org_id : Nat)
  | throttled (detail : String)
deriving DecidableEq

/-- Outcome of a scheme's `authenticate`: success with a payload, `None`
(no opinion, fall through to the next scheme), or a raised failure. -/
inductive AuthResult (α : Type) where
  | success (value : α)
  | noOpinion
  | failed (f : AuthFailure)
deriving DecidableEq

/-- User record, with the fields `auth.py` reads. -/
structure User where
  user_id : Int
  username : String
  public_primary_key : String
  is_active : Bool
deriving DecidableEq

/-- Organization record, with the fields `auth.py` reads.  `deleted_at` is an
optional timestamp; Python truthiness of a datetime means `isSome` here.
`users` models the `organization.users` queryset. -/
structure Organization where
  id : Nat
  is_moved : Bool
  deleted_at : Option Nat
  grafana_url : String
  stack_id : String
  org_slug : String
  stack_slug : String
  users : List User
deriving DecidableEq

/-- Models `organization.users.get(user_id=...)`: `none` is `User.DoesNotExist`. -/
def Organization.getUserById (org : Organization) (uid : Int) : Option User :=
  org.users.find? (fun u => u.user_id = uid)

/-- Models `organization.users.get(username=...)`: `none` is `User.DoesNotExist`. -/
def Organization.getUserByUsername (org : Organization) (login : String) : Option User :=
  org.users.find? (fun u => u.username = login)

/-- ApiAuthToken record: links a user and an organization. -/
structure ApiAuthToken where
  user : User
  organization : Organization
deriving DecidableEq

/-- `ApiTokenAuthentication.authenticate_credentials` (auth.py lines 67-82):
look the token up, then check the organization lifecycle state, then return
`(auth_token.user, auth_token)`. -/
def ApiTokenAuthentication.authenticate_credentials
    (validate_token_string : String → Option ApiAuthToken) (token : String) :
    AuthResult (User × ApiAuthToken) :=
  match validate_token_string token with
  | none => .failed (.authenticationFailed "Invalid token.")
  | some auth_token =>
    if auth_token.organization.is_moved then
      .failed (.organizationMoved auth_token.organization.id)
    else if auth_token.organization.deleted_at.isSome then
      .failed (.organizationDeleted auth_token.organization.id)
    else
      .success (auth_token.user, auth_token)

/-- `ApiTokenAuthentication.authenticate` (auth.py lines 58-65): run
`authenticate_credentials` on the decoded Authorization header, then reject
inactive users. -/
def ApiTokenAuthentication.authenticate
    (validate_token_string : String → Option ApiAuthToken)
    (authorization : String) : AuthResult (User × ApiAuthToken) :=
  match ApiTokenAuthentication.authenticate_credentials validate_token_string authorization with
  | .failed f => .failed f
  | .noOpinion => .noOpinion
  | .success (user, auth_token) =>
    if ¬ user.is_active then
      .failed (.authenticationFailed "Only active users are allowed to perform this action.")
    else
      .success (user, auth_token)

/-- Social auth token record (Slack / Mattermost / Google OAuth2 all share this
shape): a user and an organization. -/
structure SocialAuthToken where
  user : User
  organization : Organization
deriving DecidableEq

/-- `_SocialAuthTokenAuthentication.authenticate` (auth.py lines 255-273):
read the token from the named query parameter; a missing or empty parameter
returns `None` (no opinion); a failed lookup (`InvalidToken`) also returns
`None`; a found token returns `(auth_token.user, auth_token)` with no
organization-state check. -/
def socialAuthenticate
    (validate_token_string : String → Option SocialAuthToken)
    (param_value : Option String) : AuthResult (User × SocialAuthToken) :=
  match param_value with
  | none => .noOpinion
  | some auth =>
    if auth = "" then .noOpinion
    else
      match validate_token_string auth with
      | some auth_token => .success (auth_token.user, auth_token)
      | none => .noOpinion

/-- Modelled from the spec: the Slack scheme's named query parameter
(`SLACK_AUTH_TOKEN_NAME`, defined in `.constants`, outside the excerpt; the
concrete spelling is irrelevant, only that each scheme reads its own fixed
parameter). -/
def SLACK_AUTH_TOKEN_NAME : String := "slack_login_token"

/-- Modelled from the spec: the Mattermost scheme's named query parameter
(`MATTERMOST_AUTH_TOKEN_NAME`, outside the excerpt). -/
def MATTERMOST_AUTH_TOKEN_NAME : String := "mattermost_login_token"

/-- Modelled from the spec: the Google OAuth2 scheme's named query parameter
(`GOOGLE_OAUTH2_AUTH_TOKEN_NAME`, outside the excerpt). -/
def GOOGLE_OAUTH2_AUTH_TOKEN_NAME : String := "google_oauth2_login_token"

/-- `SlackTokenAuthentication.authenticate` (auth.py lines 276-278):
the generic social authenticate applied to `request.query_params.get(SLACK_AUTH_TOKEN_NAME)`. -/
def SlackTokenAuthentication.authenticate
    (validate_token_string : String → Option SocialAuthToken)
    (query_params : String → Option String) : AuthResult (User × SocialAuthToken) :=
  socialAuthenticate validate_token_string (query_params SLACK_AUTH_TOKEN_NAME)

/-- `MattermostTokenAuthentication.authenticate` (auth.py lines 281-283). -/
def MattermostTokenAuthentication.authenticate
    (validate_token_string : String → Option SocialAuthToken)
    (query_params : String → Option String) : AuthResult (User × SocialAuthToken) :=
  socialAuthenticate validate_token_string (query_params MATTERMOST_AUTH_TOKEN_NAME)

/-- `GoogleTokenAuthentication.authenticate` (auth.py lines 286-288). -/
def GoogleTokenAuthentication.authenticate
    (validate_token_string : String → Option SocialAuthToken)
    (query_params : String → Option String) : AuthResult (User × SocialAuthToken) :=
  socialAuthenticate validate_token_string (query_params GOOGLE_OAUTH2_AUTH_TOKEN_NAME)

/-- Schedule record, with the field `auth.py` reads. -/
structure Schedule where
  public_primary_key : String
deriving DecidableEq

/-- ScheduleExportAuthToken record: user, organization, bound schedule,
activation flag. -/
structure ScheduleExportAuthToken where
  user : User
  organization : Organization
  schedule : Schedule
  active : Bool
deriving DecidableEq

/-- `ScheduleExportAuthentication.authenticate_credentials` (auth.py lines
303-322): token lookup, organization lifecycle checks, then the bound
schedule's public primary key must equal the `pk` from the request path
(`None` when the path has no `pk`; a string never equals Python `None`),
then the activation flag. -/
def ScheduleExportAuthentication.authenticate_credentials
    (validate_token_string : String → Option ScheduleExportAuthToken)
    (token_string : String) (public_primary_key : Option String) :
    AuthResult (User × ScheduleExportAuthToken) :=
  match validate_token_string token_string with
  | none => .failed (.authenticationFailed "Invalid token.")
  | some auth_token =>
    if auth_token.organization.is_moved then
      .failed (.organizationMoved auth_token.organization.id)
    else if auth_token.organization.deleted_at.isSome then
      .failed (.organizationDeleted auth_token.organization.id)
    else if some auth_token.schedule.public_primary_key ≠ public_primary_key then
      .failed (.authenticationFailed "Invalid schedule export token for schedule")
    else if ¬ auth_token.active then
      .failed (.authenticationFailed "Export token is deactivated")
    else
      .success (auth_token.user, auth_token)

/-- `ScheduleExportAuthentication.authenticate` (auth.py lines 294-301): read
the token from the export query parameter and the `pk` path kwarg; a missing
or empty token is a hard failure. -/
def ScheduleExportAuthentication.authenticate
    (validate_token_string : String → Option ScheduleExportAuthToken)
    (query_token : Option String) (kwargs_pk : Option String) :
    AuthResult (User × ScheduleExportAuthToken) :=
  match query_token with
  | none => .failed (.authenticationFailed "Invalid token.")
  | some auth =>
    if auth = "" then .failed (.authenticationFailed "Invalid token.")
    else ScheduleExportAuthentication.authenticate_credentials validate_token_string auth kwargs_pk

/-- UserScheduleExportAuthToken record: user, organization, activation flag. -/
structure UserScheduleExportAuthToken where
  user : User
  organization : Organization
  active : Bool
deriving DecidableEq

/-- `UserScheduleExportAuthentication.authenticate_credentials` (auth.py lines
338-357): like the schedule-scoped variant but the bound resource is the
token's user, and the generic failure message is "Invalid token" (no period). -/
def UserScheduleExportAuthentication.authenticate_credentials
    (validate_token_string : String → Option UserScheduleExportAuthToken)
    (token_string : String) (public_primary_key : Option String) :
    AuthResult (User × UserScheduleExportAuthToken) :=
  match validate_token_string token_string with
  | none => .failed (.authenticationFailed "Invalid token")
  | some auth_token =>
    if auth_token.organization.is_moved then
      .failed (.organizationMoved auth_token.organization.id)
    else if auth_token.organization.deleted_at.isSome then
      .failed (.organizationDeleted auth_token.organization.id)
    else if some auth_token.user.public_primary_key ≠ public_primary_key then
      .failed (.authenticationFailed "Invalid schedule export token for user")
    else if ¬ auth_token.active then
      .failed (.authenticationFailed "Export token is deactivated")
    else
      .success (auth_token.user, auth_token)

/-- `UserScheduleExportAuthentication.authenticate` (auth.py lines 328-336). -/
def UserScheduleExportAuthentication.authenticate
    (validate_token_string : String → Option UserScheduleExportAuthToken)
    (query_token : Option String) (kwargs_pk : Option String) :
    AuthResult (User × UserScheduleExportAuthToken) :=
  match query_token with
  | none => .failed (.authenticationFailed "Invalid token.")
  | some auth =>
    if auth = "" then .failed (.authenticationFailed "Invalid token.")
    else UserScheduleExportAuthentication.authenticate_credentials validate_token_string auth kwargs_pk

/-- Principals a scheme can attach to a request: a concrete user, the
synthetic `ServerUser` (auth.py lines 47-52), or the synthetic
`GrafanaIncidentUser` (auth.py lines 219-224).  Both synthetic classes derive
from Django's `AnonymousUser` and override only `is_authenticated`. -/
inductive Principal where
  | realUser (u : User)
  | serverUser
  | grafanaIncidentUser
deriving DecidableEq

/-- The `is_authenticated` property of each principal.  For `serverUser` and
`grafanaIncidentUser` this is the overridden property that always returns
`True` (auth.py lines 48-52 and 220-224). -/
def Principal.is_authenticated : Principal → Bool
  | .realUser _ => true
  | .serverUser => true
  | .grafanaIncidentUser => true

/-- The concrete user identity a principal carries: `none` for the synthetic
principals, which subclass the anonymous-user type and hold no user record. -/
def Principal.concrete_user : Principal → Option User
  | .realUser u => some u
  | .serverUser => none
  | .grafanaIncidentUser => none

/-- Modelled from the spec / Django: the `is_authenticated` property of the
base `AnonymousUser` type that `ServerUser` and `GrafanaIncidentUser` derive
from is `False`. -/
def AnonymousUser.is_authenticated : Bool := false

/-- `GrafanaIncidentStaticKeyAuth.authenticate` (auth.py lines 232-252): with
`K = settings.GRAFANA_INCIDENT_STATIC_API_KEY`, raise "Wrong token" when
`not token_string == K or K is None` (Python: a `str` never equals `None`),
then raise "No token provided" when the token string is empty, else
`authenticate_credentials` unconditionally returns
`(GrafanaIncidentUser(), None)`. -/
def GrafanaIncidentStaticKeyAuth.authenticate
    (static_api_key : Option String) (token_string : String) :
    AuthResult (Principal × Option Unit) :=
  if ¬ (some token_string = static_api_key) ∨ static_api_key = none then
    .failed (.authenticationFailed "Wrong token")
  else if token_string = "" then
    .failed (.authenticationFailed "No token provided")
  else
    .success (.grafanaIncidentUser, none)

/-- Parsed `X-Grafana-Context` header.  `userId` models presence of the
`"UserId"` key, `userID` the `"UserID"` key, `login` the `"Login"` key;
`is_service_account` is `context.get("IsServiceAccount", False)`.  JSON null
values for present keys are not modelled (the code paths under proof only
distinguish key presence). -/
structure GrafanaContext where
  userId : Option Int
  userID : Option Int
  is_service_account : Bool
  login : Option String
deriving DecidableEq

/-- `BasePluginAuthentication._get_user` (auth.py lines 127-154), the tolerant
variant: an absent or malformed `X-Grafana-Context` yields no user; a context
with neither `UserId` nor `UserID` key yields no user; otherwise `user_id` is
taken from `UserId`, falling back to `UserID` on `KeyError`; a service-account
context yields no user; an unknown id yields no user. -/
def BasePluginAuthentication._get_user
    (organization : Organization) (x_grafana_context : Option GrafanaContext) :
    Option User :=
  match x_grafana_context with
  | none => none
  | some context =>
    match context.userId, context.userID with
    | none, none => none
    | some user_id, _ =>
      if context.is_service_account then none
      else organization.getUserById user_id
    | none, some user_id =>
      if context.is_service_account then none
      else organization.getUserById user_id

/-- `SyncPermission` payload entry (one `{"action": ...}` element). -/
structure SyncPermission where
  action : String
deriving DecidableEq

/-- `SyncUser` payload built from the `X-Oncall-User-Context` dict (auth.py
lines 187-196). -/
structure SyncUser where
  id : Int
  name : String
  login : String
  email : String
  role : String
  avatar_url : String
  permissions : List SyncPermission
  teams : Option (List Int)
deriving DecidableEq

/-- Parsed `X-Oncall-User-Context` header, as consumed by the strict plugin
variant: the header may be absent or not a JSON dict (one `except` branch in
the code covers both), parse to an empty dict, or carry a user-sync payload. -/
inductive UserSyncHeader where
  | absentOrMalformed
  | emptyDict
  | payload (data : SyncUser)
deriving DecidableEq

/-- The `User.DoesNotExist` fallback of `PluginAuthentication._get_user`
(auth.py lines 176-200): parse `X-Oncall-User-Context`; absent or malformed
raises "User context must be JSON dict."; an empty dict raises "Non-existent
or anonymous user."; a payload is handed to the external
`get_or_create_user` collaborator. -/
def PluginAuthentication.sync_user_fallback
    (get_or_create_user : SyncUser → User)
    (x_oncall_user_context : UserSyncHeader) : Except AuthFailure User :=
  match x_oncall_user_context with
  | .absentOrMalformed => .error (.authenticationFailed "User context must be JSON dict.")
  | .emptyDict => .error (.authenticationFailed "Non-existent or anonymous user.")
  | .payload data => .ok (get_or_create_user data)

/-- `PluginAuthentication._get_user` (auth.py lines 158-200), the strict
variant: absent or malformed `X-Grafana-Context` raises; a service-account
context raises; `user_id = context.get("UserId", context.get("UserID"))`; a
present id is looked up by `user_id`, else a present `Login` key is looked up
by username, else "Grafana context must specify a User or UserID." is raised;
a failed lookup (`User.DoesNotExist`) falls back to the user-sync payload. -/
def PluginAuthentication._get_user
    (get_or_create_user : SyncUser → User)
    (organization : Organization)
    (x_grafana_context : Option GrafanaContext)
    (x_oncall_user_context : UserSyncHeader) : Except AuthFailure User :=
  match x_grafana_context with
  | none => .error (.authenticationFailed "Grafana context must be JSON dict.")
  | some context =>
    if context.is_service_account then
      .error (.authenticationFailed "Service accounts requests are not allowed.")
    else
      match context.userId.orElse (fun _ => context.userID) with
      | some user_id =>
        match organization.getUserById user_id with
        | some u => .ok u
        | none => PluginAuthentication.sync_user_fallback get_or_create_user x_oncall_user_context
      | none =>
        match context.login with
        | some login =>
          match organization.getUserByUsername login with
          | some u => .ok u
          | none => PluginAuthentication.sync_user_fallback get_or_create_user x_oncall_user_context
        | none => .error (.authenticationFailed "Grafana context must specify a User or UserID.")

/-- Python `url.rstrip("/")`: drop every trailing slash. -/
def rstripSlash (s : String) : String :=
  String.mk (List.reverse ((List.reverse s.data).dropWhile (fun c => c = '/')))

/-- Python `s.startswith(p)`, computed on the underlying character lists
(semantically `String.startsWith`, in a form the kernel evaluates). -/
def strStartsWith (s p : String) : Bool := p.data.isPrefixOf s.data

/-- Modelled from the spec: `ServiceAccountToken.GRAFANA_SA_PREFIX`, the fixed
publicly known marker at the start of a service-account token (the model, and
its concrete value, live outside the excerpt; only its role as a dispatch
discriminator matters). -/
def GRAFANA_SA_MARKER : String := "glsa_"

/-- ServiceAccountToken record: links to an organization. -/
structure ServiceAccountTokenRec where
  organization : Organization
deriving DecidableEq

/-- Observable side effects of
`GrafanaServiceAccountAuthentication.get_organization`: store queries and the
`setup_organization(url, auth)` sync trigger. -/
inductive ResolveEvent where
  | queryByUrl (url : String)
  | triggerSync (url : String) (auth : String)
  | queryByStackId (instance_id : String)
  | queryBySlugPair (org_slug : String) (stack_slug : String)
deriving DecidableEq

/-- Environment of the service-account scheme: the external collaborators and
settings `auth.py` consumes.  The store is queried twice on the sync path, so
two snapshots are passed (`orgs_by_url` before the trigger,
`orgs_by_url_after_sync` after); `setup_organization_ok` is the response of
the sync trigger (`False` models the 400/conflict when a sync was already
triggered) — the code ignores it. -/
structure ServiceAccountEnv where
  validate_url : String → Option String
  orgs_by_url : String → Option Organization
  orgs_by_url_after_sync : String → Option Organization
  setup_organization_ok : Bool
  license_is_cloud : Bool
  org_by_stack_id : String → Option Organization
  orgs_by_slug_pair : String → String → Option Organization
  self_hosted_org_slug : String
  self_hosted_stack_slug : String
  validate_token : Organization → String → Option (User × ServiceAccountTokenRec)

/-- The license-dependent tail of `get_organization` (auth.py lines 400-408):
in cloud mode require the `X-Grafana-Instance-ID` header (missing or empty is
a hard failure) and look up by stack id; otherwise look up by the statically
configured slug pair. -/
def GrafanaServiceAccountAuthentication.license_based_lookup
    (env : ServiceAccountEnv) (x_grafana_instance_id : Option String) :
    Except AuthFailure (Option Organization) × List ResolveEvent :=
  if env.license_is_cloud then
    match x_grafana_instance_id with
    | none => (.error (.authenticationFailed "Missing X-Grafana-Instance-ID"), [])
    | some instance_id =>
      if instance_id = "" then
        (.error (.authenticationFailed "Missing X-Grafana-Instance-ID"), [])
      else
        (.ok (env.org_by_stack_id instance_id), [.queryByStackId instance_id])
  else
    (.ok (env.orgs_by_slug_pair env.self_hosted_org_slug env.self_hosted_stack_slug),
      [.queryBySlugPair env.self_hosted_org_slug env.self_hosted_stack_slug])

/-- `GrafanaServiceAccountAuthentication.get_organization` (auth.py lines
382-408): with a non-empty `X-Grafana-URL` header that passes `validate_url`,
strip trailing slashes and query by stored url; on a miss, trigger
`setup_organization(url, auth)` (response ignored), re-query once, and raise
the retryable `Throttled` failure when still absent.  An absent, empty, or
invalid url header falls through to the license-based lookup.  The second
component records the side effects in order. -/
def GrafanaServiceAccountAuthentication.get_organization
    (env : ServiceAccountEnv) (x_grafana_url x_grafana_instance_id : Option String)
    (auth : String) : Except AuthFailure (Option Organization) × List ResolveEvent :=
  match x_grafana_url with
  | none => GrafanaServiceAccountAuthentication.license_based_lookup env x_grafana_instance_id
  | some grafana_url =>
    if grafana_url = "" then
      GrafanaServiceAccountAuthentication.license_based_lookup env x_grafana_instance_id
    else
      match env.validate_url grafana_url with
      | none => GrafanaServiceAccountAuthentication.license_based_lookup env x_grafana_instance_id
      | some validated =>
        let url := rstripSlash validated
        match env.orgs_by_url url with
        | some organization => (.ok (some organization), [.queryByUrl url])
        | none =>
          match env.orgs_by_url_after_sync url with
          | some organization =>
            (.ok (some organization), [.queryByUrl url, .triggerSync url auth, .queryByUrl url])
          | none =>
            (.error (.throttled "Organization being synced, please retry."),
              [.queryByUrl url, .triggerSync url auth, .queryByUrl url])

/-- `GrafanaServiceAccountAuthentication.authenticate_credentials` (auth.py
lines 410-416): `ServiceAccountToken.validate_token(organization, token)`
(external) either raises `InvalidToken` — surfaced as "Invalid token." — or
yields the `(user, auth_token)` pair. -/
def GrafanaServiceAccountAuthentication.authenticate_credentials
    (env : ServiceAccountEnv) (organization : Organization) (token : String) :
    AuthResult (User × ServiceAccountTokenRec) :=
  match env.validate_token organization token with
  | none => .failed (.authenticationFailed "Invalid token.")
  | some (user, auth_token) => .success (user, auth_token)

/-- `GrafanaServiceAccountAuthentication.authenticate` (auth.py lines
365-380): an empty Authorization header raises "Invalid token."; a header
that does not start with the service-account marker returns `None` (no
opinion); otherwise resolve the organization (propagating its raised
failures), raise "Organization not found." on `None`, check the moved/deleted
lifecycle state, then validate the secret. -/
def GrafanaServiceAccountAuthentication.authenticate
    (env : ServiceAccountEnv) (authorization : String)
    (x_grafana_url x_grafana_instance_id : Option String) :
    AuthResult (User × ServiceAccountTokenRec) × List ResolveEvent :=
  if authorization = "" then
    (.failed (.authenticationFailed "Invalid token."), [])
  else if ¬ strStartsWith authorization GRAFANA_SA_MARKER then
    (.noOpinion, [])
  else
    match GrafanaServiceAccountAuthentication.get_organization env x_grafana_url
        x_grafana_instance_id authorization with
    | (.error f, events) => (.failed f, events)
    | (.ok none, events) => (.failed (.authenticationFailed "Organization not found."), events)
    | (.ok (some organization), events) =>
      if organization.is_moved then
        (.failed (.organizationMoved organization.id), events)
      else if organization.deleted_at.isSome then
        (.failed (.organizationDeleted organization.id), events)
      else
        (GrafanaServiceAccountAuthentication.authenticate_credentials env organization
          authorization, events)

/-- IntegrationBacksyncAuthToken record: links to an organization. -/
structure IntegrationBacksyncAuthToken where
  organization : Organization
deriving DecidableEq

/-- `IntegrationBacksyncAuthentication.authenticate_credentials` (auth.py
lines 430-443): token lookup ("Invalid token" on failure), organization
lifecycle checks, then the synthetic `ServerUser()` principal is returned. -/
def IntegrationBacksyncAuthentication.authenticate_credentials
    (validate_token_string : String → Option IntegrationBacksyncAuthToken)
    (token_string : String) : AuthResult (Principal × IntegrationBacksyncAuthToken) :=
  match validate_token_string token_string with
  | none => .failed (.authenticationFailed "Invalid token")
  | some auth_token =>
    if auth_token.organization.is_moved then
      .failed (.organizationMoved auth_token.organization.id)
    else if auth_token.organization.deleted_at.isSome then
      .failed (.organizationDeleted auth_token.organization.id)
    else
      .success (.serverUser, auth_token)

/-- `IntegrationBacksyncAuthentication.authenticate` (auth.py lines 422-428):
an empty Authorization header raises "Invalid token.". -/
def IntegrationBacksyncAuthentication.authenticate
    (validate_token_string : String → Option IntegrationBacksyncAuthToken)
    (authorization : String) : AuthResult (Principal × IntegrationBacksyncAuthToken) :=
  if authorization = "" then
    .failed (.authenticationFailed "Invalid token.")
  else
    IntegrationBacksyncAuthentication.authenticate_credentials validate_token_string authorization

/-- Example active user. -/
def userEx : User :=
  { user_id := 1, username := "alice", public_primary_key := "UPK1", is_active := true }

/-- Example inactive user. -/
def userInactive : User :=
  { user_id := 2, username := "bob", public_primary_key := "UPK2", is_active := false }

/-- Example healthy organization. -/
def orgActive : Organization :=
  { id := 10, is_moved := false, deleted_at := none,
    grafana_url := "https://g.example.com", stack_id := "stack1",
    org_slug := "org", stack_slug := "stack", users := [userEx, userInactive] }

/-- Example moved organization. -/
def orgMoved : Organization := { orgActive with id := 11, is_moved := true }

/-- Example deleted organization. -/
def orgDeleted : Organization := { orgActive with id := 12, deleted_at := some 1700000000 }

/-- Example organization with no users. -/
def orgNoUsers : Organization := { orgActive with id := 13, users := [] }

/-- Example service-account environment: the url "bad" fails validation,
`orgActive` is stored under its url and stack id, and the token "glsa_good"
validates. -/
def envEx : ServiceAccountEnv :=
  { validate_url := fun s => if s = "bad" then none else some s
  , orgs_by_url := fun u => if u = orgActive.grafana_url then some orgActive else none
  , orgs_by_url_after_sync := fun u => if u = orgActive.grafana_url then some orgActive else none
  , setup_organization_ok := true
  , license_is_cloud := true
  , org_by_stack_id := fun i => if i = orgActive.stack_id then some orgActive else none
  , orgs_by_slug_pair := fun _ _ => none
  , self_hosted_org_slug := "org"
  , self_hosted_stack_slug := "stack"
  , validate_token := fun o t => if t = "glsa_good" then some (userEx, ⟨o⟩) else none }

/-- Example environment where the url store misses on every query (before and
after the sync trigger). -/
def envExMiss : ServiceAccountEnv :=
  { envEx with orgs_by_url := fun _ => none, orgs_by_url_after_sync := fun _ => none }

/-- C9: `GrafanaIncidentStaticKeyAuth.authenticate` succeeds exactly when the
raw Authorization header string is non-empty, the configured static key is not
`None`, and the header equals that key, returning the `GrafanaIncidentUser`
principal with no credential; a `None` key makes every request fail with
"Wrong token", and the "No token provided" branch is reachable only when the
configured key is the empty string. -/
theorem C9_static_key_auth_characterization
    (static_api_key : Option String) (token_string : String) :
    (GrafanaIncidentStaticKeyAuth.authenticate static_api_key token_string =
        .success (.grafanaIncidentUser, none) ↔
      token_string ≠ "" ∧ static_api_key ≠ none ∧ static_api_key = some token_string)
    ∧ (∀ v, GrafanaIncidentStaticKeyAuth.authenticate static_api_key token_string =
        .success v → v = (.grafanaIncidentUser, none))
    ∧ (static_api_key = none →
        GrafanaIncidentStaticKeyAuth.authenticate static_api_key token_string =
          .failed (.authenticationFailed "Wrong token"))
    ∧ (GrafanaIncidentStaticKeyAuth.authenticate static_api_key token_string =
          .failed (.authenticationFailed "No token provided") →
        static_api_key = some "") := by
  unfold GrafanaIncidentStaticKeyAuth.authenticate
  rcases static_api_key with _ | key
  · simp
  · by_cases htok : token_string = key
    · subst htok
      by_cases hempty : token_string = ""
      · subst hempty; simp
      · simp [hempty]
    · have hne : ¬ (key = token_string) := fun h => htok h.symm
      refine ⟨?_, ?_, ?_, ?_⟩ <;> simp [htok, hne]

/-- C9 witness: with the key configured as "k1", the request carrying "k1"
authenticates as the incident principal with no credential. -/
theorem C9_static_key_auth_characterization_witness :
    GrafanaIncidentStaticKeyAuth.authenticate (some "k1") "k1" =
      .success (.grafanaIncidentUser, none) :=
  (C9_static_key_auth_characterization (some "k1") "k1").1.mpr
    ⟨by decide, by simp, rfl⟩

/-- C10: the synthetic `ServerUser` and `GrafanaIncidentUser` principals
(subclasses of the anonymous-user type) override `is_authenticated` to `True`
for every instance, unlike the `AnonymousUser` base; every successful backsync
or static-key authentication yields such a principal, which passes
is-authenticated checks while carrying no concrete user identity. -/
theorem C10_synthetic_principals_always_authenticated :
    Principal.is_authenticated .serverUser = true
    ∧ Principal.is_authenticated .grafanaIncidentUser = true
    ∧ AnonymousUser.is_authenticated = false
    ∧ Principal.concrete_user .serverUser = none
    ∧ Principal.concrete_user .grafanaIncidentUser = none
    ∧ (∀ (validate_token_string : String → Option IntegrationBacksyncAuthToken)
        (authorization : String) (p : Principal) (t : IntegrationBacksyncAuthToken),
        IntegrationBacksyncAuthentication.authenticate validate_token_string authorization =
          .success (p, t) →
        p = .serverUser ∧ p.is_authenticated = true ∧ p.concrete_user = none)
    ∧ (∀ (static_api_key : Option String) (token_string : String) (p : Principal)
        (c : Option Unit),
        GrafanaIncidentStaticKeyAuth.authenticate static_api_key token_string =
          .success (p, c) →
        p = .grafanaIncidentUser ∧ p.is_authenticated = true ∧ p.concrete_user = none) := by
  refine ⟨rfl, rfl, rfl, rfl, rfl, ?_, ?_⟩
  · intro v authorization p t h
    unfold IntegrationBacksyncAuthentication.authenticate
      IntegrationBacksyncAuthentication.authenticate_credentials at h
    by_cases hempty : authorization = "" <;> simp [hempty] at h
    rcases hv : v authorization with _ | tok <;> rw [hv] at h <;> simp at h
    by_cases hm : tok.organization.is_moved <;> simp [hm] at h
    by_cases hd : tok.organization.deleted_at.isSome <;> simp [hd] at h
    rcases h with ⟨hp, _⟩
    subst hp
    exact ⟨rfl, rfl, rfl⟩
  · intro static_api_key token_string p c h
    unfold GrafanaIncidentStaticKeyAuth.authenticate at h
    by_cases h1 : ¬ (some token_string = static_api_key) ∨ static_api_key = none <;>
      simp [h1] at h
    by_cases h2 : token_string = "" <;> simp [h2] at h
    rcases h with ⟨hp, hc⟩
    subst hp
    exact ⟨rfl, rfl, rfl⟩

/-- C10 witness: a concrete successful backsync authentication and a concrete
successful static-key authentication both yield always-authenticated synthetic
principals without a concrete user. -/
theorem C10_synthetic_principals_always_authenticated_witness :
    (Principal.serverUser = Principal.serverUser
      ∧ Principal.is_authenticated .serverUser = true
      ∧ Principal.concrete_user .serverUser = none)
    ∧ (Principal.grafanaIncidentUser = Principal.grafanaIncidentUser
      ∧ Principal.is_authenticated .grafanaIncidentUser = true
      ∧ Principal.concrete_user .grafanaIncidentUser = none) :=
  ⟨C10_synthetic_principals_always_authenticated.2.2.2.2.2.1
      (fun _ => some ⟨orgActive⟩) "backsync-token" .serverUser ⟨orgActive⟩ (by decide),
    C10_synthetic_principals_always_authenticated.2.2.2.2.2.2
      (some "k1") "k1" .grafanaIncidentUser none (by decide)⟩

/-- Example environment whose stack-id lookup yields the moved organization. -/
def envExMoved : ServiceAccountEnv := { envEx with org_by_stack_id := fun _ => some orgMoved }

/-- Example environment whose stack-id lookup yields the deleted organization. -/
def envExDeleted : ServiceAccountEnv := { envEx with org_by_stack_id := fun _ => some orgDeleted }

/-- C1 counterexample: the claim is false for the social-token schemes.  A
Slack-token request whose token resolves to a credential of a moved
organization authenticates successfully — `_SocialAuthTokenAuthentication`
never inspects the organization's lifecycle state. -/
theorem C1_counterexample_social_scheme_ignores_moved_org :
    orgMoved.is_moved = true
    ∧ SlackTokenAuthentication.authenticate
        (fun _ => some { user := userEx, organization := orgMoved })
        (fun _ => some "social-token") =
      .success (userEx, { user := userEx, organization := orgMoved }) := by
  exact ⟨rfl, by decide⟩

/-- C1 (amended): for the API-token, both schedule-export, service-account and
backsync schemes, a credential (or, for the service-account scheme, the
resolved organization) whose organization is moved or deleted makes
authentication fail with the organization-moved / organization-deleted
failure before any user- or credential-shape check, regardless of anything
else about the token; the three social-token schemes, however, perform no
organization-state check and succeed on any found token. -/
theorem C1_amended_moved_or_deleted_blocks_nonsocial_schemes :
    (∀ (v : String → Option ApiAuthToken) (tok : String) (t : ApiAuthToken),
      v tok = some t → t.organization.is_moved = true →
      ApiTokenAuthentication.authenticate v tok = .failed (.organizationMoved t.organization.id))
    ∧ (∀ (v : String → Option ApiAuthToken) (tok : String) (t : ApiAuthToken),
      v tok = some t → t.organization.is_moved = false →
      t.organization.deleted_at.isSome = true →
      ApiTokenAuthentication.authenticate v tok = .failed (.organizationDeleted t.organization.id))
    ∧ (∀ (v : String → Option ScheduleExportAuthToken) (tok : String) (pk : Option String)
        (t : ScheduleExportAuthToken),
      v tok = some t → t.organization.is_moved = true →
      ScheduleExportAuthentication.authenticate_credentials v tok pk =
        .failed (.organizationMoved t.organization.id))
    ∧ (∀ (v : String → Option ScheduleExportAuthToken) (tok : String) (pk : Option String)
        (t : ScheduleExportAuthToken),
      v tok = some t → t.organization.is_moved = false →
      t.organization.deleted_at.isSome = true →
      ScheduleExportAuthentication.authenticate_credentials v tok pk =
        .failed (.organizationDeleted t.organization.id))
    ∧ (∀ (v : String → Option UserScheduleExportAuthToken) (tok : String) (pk : Option String)
        (t : UserScheduleExportAuthToken),
      v tok = some t → t.organization.is_moved = true →
      UserScheduleExportAuthentication.authenticate_credentials v tok pk =
        .failed (.organizationMoved t.organization.id))
    ∧ (∀ (v : String → Option UserScheduleExportAuthToken) (tok : String) (pk : Option String)
        (t : UserScheduleExportAuthToken),
      v tok = some t → t.organization.is_moved = false →
      t.organization.deleted_at.isSome = true →
      UserScheduleExportAuthentication.authenticate_credentials v tok pk =
        .failed (.organizationDeleted t.organization.id))
    ∧ (∀ (v : String → Option IntegrationBacksyncAuthToken) (tok : String)
        (t : IntegrationBacksyncAuthToken),
      v tok = some t → tok ≠ "" → t.organization.is_moved = true →
      IntegrationBacksyncAuthentication.authenticate v tok =
        .failed (.organizationMoved t.organization.id))
    ∧ (∀ (v : String → Option IntegrationBacksyncAuthToken) (tok : String)
        (t : IntegrationBacksyncAuthToken),
      v tok = some t → tok ≠ "" → t.organization.is_moved = false →
      t.organization.deleted_at.isSome = true →
      IntegrationBacksyncAuthentication.authenticate v tok =
        .failed (.organizationDeleted t.organization.id))
    ∧ (∀ (env : ServiceAccountEnv) (auth : String) (url iid : Option String)
        (org : Organization) (events : List ResolveEvent),
      strStartsWith auth GRAFANA_SA_MARKER = true →
      GrafanaServiceAccountAuthentication.get_organization env url iid auth =
        (.ok (some org), events) →
      org.is_moved = true →
      GrafanaServiceAccountAuthentication.authenticate env auth url iid =
        (.failed (.organizationMoved org.id), events))
    ∧ (∀ (env : ServiceAccountEnv) (auth : String) (url iid : Option String)
        (org : Organization) (events : List ResolveEvent),
      strStartsWith auth GRAFANA_SA_MARKER = true →
      GrafanaServiceAccountAuthentication.get_organization env url iid auth =
        (.ok (some org), events) →
      org.is_moved = false → org.deleted_at.isSome = true →
      GrafanaServiceAccountAuthentication.authenticate env auth url iid =
        (.failed (.organizationDeleted org.id), events))
    ∧ (∀ (v : String → Option SocialAuthToken) (qp : String → Option String)
        (a : String) (t : SocialAuthToken),
      qp SLACK_AUTH_TOKEN_NAME = some a → a ≠ "" → v a = some t →
      SlackTokenAuthentication.authenticate v qp = .success (t.user, t))
    ∧ (∀ (v : String → Option SocialAuthToken) (qp : String → Option String)
        (a : String) (t : SocialAuthToken),
      qp MATTERMOST_AUTH_TOKEN_NAME = some a → a ≠ "" → v a = some t →
      MattermostTokenAuthentication.authenticate v qp = .success (t.user, t))
    ∧ (∀ (v : String → Option SocialAuthToken) (qp : String → Option String)
        (a : String) (t : SocialAuthToken),
      qp GOOGLE_OAUTH2_AUTH_TOKEN_NAME = some a → a ≠ "" → v a = some t →
      GoogleTokenAuthentication.authenticate v qp = .success (t.user, t)) := by
  refine ⟨?_, ?_, ?_, ?_, ?_, ?_, ?_, ?_, ?_, ?_, ?_, ?_, ?_⟩
  · intro v tok t hv hm
    unfold ApiTokenAuthentication.authenticate ApiTokenAuthentication.authenticate_credentials
    rw [hv]
    simp [hm]
  · intro v tok t hv hm hd
    unfold ApiTokenAuthentication.authenticate ApiTokenAuthentication.authenticate_credentials
    rw [hv]
    simp [hm, hd]
  · intro v tok pk t hv hm
    unfold ScheduleExportAuthentication.authenticate_credentials
    rw [hv]
    simp [hm]
  · intro v tok pk t hv hm hd
    unfold ScheduleExportAuthentication.authenticate_credentials
    rw [hv]
    simp [hm, hd]
  · intro v tok pk t hv hm
    unfold UserScheduleExportAuthentication.authenticate_credentials
    rw [hv]
    simp [hm]
  · intro v tok pk t hv hm hd
    unfold UserScheduleExportAuthentication.authenticate_credentials
    rw [hv]
    simp [hm, hd]
  · intro v tok t hv hne hm
    unfold IntegrationBacksyncAuthentication.authenticate
      IntegrationBacksyncAuthentication.authenticate_credentials
    rw [hv]
    simp [hne, hm]
  · intro v tok t hv hne hm hd
    unfold IntegrationBacksyncAuthentication.authenticate
      IntegrationBacksyncAuthentication.authenticate_credentials
    rw [hv]
    simp [hne, hm, hd]
  · intro env auth url iid org events hsw hres hm
    have hne : ¬ (auth = "") := by
      intro h
      rw [h] at hsw
      exact absurd hsw (by decide)
    unfold GrafanaServiceAccountAuthentication.authenticate
    simp [hne, hsw, hres, hm]
  · intro env auth url iid org events hsw hres hm hd
    have hne : ¬ (auth = "") := by
      intro h
      rw [h] at hsw
      exact absurd hsw (by decide)
    unfold GrafanaServiceAccountAuthentication.authenticate
    simp [hne, hsw, hres, hm, hd]
  · intro v qp a t hq ha hv
    unfold SlackTokenAuthentication.authenticate socialAuthenticate
    rw [hq]
    simp [ha, hv]
  · intro v qp a t hq ha hv
    unfold MattermostTokenAuthentication.authenticate socialAuthenticate
    rw [hq]
    simp [ha, hv]
  · intro v qp a t hq ha hv
    unfold GoogleTokenAuthentication.authenticate socialAuthenticate
    rw [hq]
    simp [ha, hv]

/-- Example API token bound to the moved organization. -/
def apiTokMoved : ApiAuthToken := { user := userEx, organization := orgMoved }

/-- Example API token bound to the deleted organization. -/
def apiTokDeleted : ApiAuthToken := { user := userEx, organization := orgDeleted }

/-- Example schedule-export token bound to the moved organization. -/
def schedTokMoved : ScheduleExportAuthToken :=
  { user := userEx, organization := orgMoved, schedule := { public_primary_key := "SPK" },
    active := true }

/-- Example schedule-export token bound to the deleted organization. -/
def schedTokDeleted : ScheduleExportAuthToken :=
  { user := userEx, organization := orgDeleted, schedule := { public_primary_key := "SPK" },
    active := true }

/-- Example user-schedule-export token bound to the moved organization. -/
def userSchedTokMoved : UserScheduleExportAuthToken :=
  { user := userEx, organization := orgMoved, active := true }

/-- Example user-schedule-export token bound to the deleted organization. -/
def userSchedTokDeleted : UserScheduleExportAuthToken :=
  { user := userEx, organization := orgDeleted, active := true }

/-- Example social token bound to the moved organization. -/
def socialTokMoved : SocialAuthToken := { user := userEx, organization := orgMoved }

/-- C1 witness: each amended conjunct instantiated at a concrete request. -/
theorem C1_amended_moved_or_deleted_blocks_nonsocial_schemes_witness :
    ApiTokenAuthentication.authenticate (fun _ => some apiTokMoved) "t" =
      .failed (.organizationMoved orgMoved.id)
    ∧ ApiTokenAuthentication.authenticate (fun _ => some apiTokDeleted) "t" =
      .failed (.organizationDeleted orgDeleted.id)
    ∧ ScheduleExportAuthentication.authenticate_credentials (fun _ => some schedTokMoved)
        "t" (some "SPK") = .failed (.organizationMoved orgMoved.id)
    ∧ ScheduleExportAuthentication.authenticate_credentials (fun _ => some schedTokDeleted)
        "t" (some "SPK") = .failed (.organizationDeleted orgDeleted.id)
    ∧ UserScheduleExportAuthentication.authenticate_credentials (fun _ => some userSchedTokMoved)
        "t" (some "UPK1") = .failed (.organizationMoved orgMoved.id)
    ∧ UserScheduleExportAuthentication.authenticate_credentials (fun _ => some userSchedTokDeleted)
        "t" (some "UPK1") = .failed (.organizationDeleted orgDeleted.id)
    ∧ IntegrationBacksyncAuthentication.authenticate
        (fun _ => some { organization := orgMoved }) "t" =
      .failed (.organizationMoved orgMoved.id)
    ∧ IntegrationBacksyncAuthentication.authenticate
        (fun _ => some { organization := orgDeleted }) "t" =
      .failed (.organizationDeleted orgDeleted.id)
    ∧ GrafanaServiceAccountAuthentication.authenticate envExMoved "glsa_x" none (some "stack1") =
      (.failed (.organizationMoved orgMoved.id), [.queryByStackId "stack1"])
    ∧ GrafanaServiceAccountAuthentication.authenticate envExDeleted "glsa_x" none (some "stack1") =
      (.failed (.organizationDeleted orgDeleted.id), [.queryByStackId "stack1"])
    ∧ SlackTokenAuthentication.authenticate (fun _ => some socialTokMoved)
        (fun _ => some "tok") = .success (userEx, socialTokMoved)
    ∧ MattermostTokenAuthentication.authenticate (fun _ => some socialTokMoved)
        (fun _ => some "tok") = .success (userEx, socialTokMoved)
    ∧ GoogleTokenAuthentication.authenticate (fun _ => some socialTokMoved)
        (fun _ => some "tok") = .success (userEx, socialTokMoved) :=
  ⟨C1_amended_moved_or_deleted_blocks_nonsocial_schemes.1
      (fun _ => some apiTokMoved) "t" apiTokMoved rfl rfl,
    C1_amended_moved_or_deleted_blocks_nonsocial_schemes.2.1
      (fun _ => some apiTokDeleted) "t" apiTokDeleted rfl rfl rfl,
    C1_amended_moved_or_deleted_blocks_nonsocial_schemes.2.2.1
      (fun _ => some schedTokMoved) "t" (some "SPK") schedTokMoved rfl rfl,
    C1_amended_moved_or_deleted_blocks_nonsocial_schemes.2.2.2.1
      (fun _ => some schedTokDeleted) "t" (some "SPK") schedTokDeleted rfl rfl rfl,
    C1_amended_moved_or_deleted_blocks_nonsocial_schemes.2.2.2.2.1
      (fun _ => some userSchedTokMoved) "t" (some "UPK1") userSchedTokMoved rfl rfl,
    C1_amended_moved_or_deleted_blocks_nonsocial_schemes.2.2.2.2.2.1
      (fun _ => some userSchedTokDeleted) "t" (some "UPK1") userSchedTokDeleted rfl rfl rfl,
    C1_amended_moved_or_deleted_blocks_nonsocial_schemes.2.2.2.2.2.2.1
      (fun _ => some { organization := orgMoved }) "t" { organization := orgMoved }
      rfl (by decide) rfl,
    C1_amended_moved_or_deleted_blocks_nonsocial_schemes.2.2.2.2.2.2.2.1
      (fun _ => some { organization := orgDeleted }) "t" { organization := orgDeleted }
      rfl (by decide) rfl rfl,
    C1_amended_moved_or_deleted_blocks_nonsocial_schemes.2.2.2.2.2.2.2.2.1
      envExMoved "glsa_x" none (some "stack1") orgMoved [.queryByStackId "stack1"]
      (by decide) rfl rfl,
    C1_amended_moved_or_deleted_blocks_nonsocial_schemes.2.2.2.2.2.2.2.2.2.1
      envExDeleted "glsa_x" none (some "stack1") orgDeleted [.queryByStackId "stack1"]
      (by decide) rfl rfl rfl,
    C1_amended_moved_or_deleted_blocks_nonsocial_schemes.2.2.2.2.2.2.2.2.2.2.1
      (fun _ => some socialTokMoved) (fun _ => some "tok") "tok" socialTokMoved
      rfl (by decide) rfl,
    C1_amended_moved_or_deleted_blocks_nonsocial_schemes.2.2.2.2.2.2.2.2.2.2.2.1
      (fun _ => some socialTokMoved) (fun _ => some "tok") "tok" socialTokMoved
      rfl (by decide) rfl,
    C1_amended_moved_or_deleted_blocks_nonsocial_schemes.2.2.2.2.2.2.2.2.2.2.2.2
      (fun _ => some socialTokMoved) (fun _ => some "tok") "tok" socialTokMoved
      rfl (by decide) rfl⟩

/-- C2 counterexample: with the Slack query parameter present but the token
unknown to the store, `authenticate` returns `None` (no opinion, enabling
fallback) instead of the definitive hard failure the claim requires. -/
theorem C2_counterexample_unknown_token_yields_no_opinion :
    SlackTokenAuthentication.authenticate (fun _ => none) (fun _ => some "unknown-token") =
      .noOpinion := by
  decide

/-- C2 (amended): for each of the three social-token schemes, an absent (or
empty) query parameter yields no opinion and never raises; a present-but-
unknown token ALSO yields no opinion (the `InvalidToken` branch returns
`None`), enabling fallback rather than a hard failure; in fact these schemes
never produce a failure at all, and a found token succeeds. -/
theorem C2_amended_social_schemes_never_fail :
    (∀ (v : String → Option SocialAuthToken) (qp : String → Option String),
      SlackTokenAuthentication.authenticate v qp =
        socialAuthenticate v (qp SLACK_AUTH_TOKEN_NAME)
      ∧ MattermostTokenAuthentication.authenticate v qp =
        socialAuthenticate v (qp MATTERMOST_AUTH_TOKEN_NAME)
      ∧ GoogleTokenAuthentication.authenticate v qp =
        socialAuthenticate v (qp GOOGLE_OAUTH2_AUTH_TOKEN_NAME))
    ∧ (∀ (v : String → Option SocialAuthToken),
      socialAuthenticate v none = .noOpinion)
    ∧ (∀ (v : String → Option SocialAuthToken) (pv : Option String) (f : AuthFailure),
      socialAuthenticate v pv ≠ .failed f)
    ∧ (∀ (v : String → Option SocialAuthToken) (a : String),
      a ≠ "" → v a = none → socialAuthenticate v (some a) = .noOpinion)
    ∧ (∀ (v : String → Option SocialAuthToken) (a : String) (t : SocialAuthToken),
      a ≠ "" → v a = some t → socialAuthenticate v (some a) = .success (t.user, t)) := by
  refine ⟨fun v qp => ⟨rfl, rfl, rfl⟩, fun v => rfl, ?_, ?_, ?_⟩
  · intro v pv f h
    unfold socialAuthenticate at h
    rcases pv with _ | a
    · exact absurd h (by simp)
    · by_cases ha : a = "" <;> simp [ha] at h
      rcases hv : v a with _ | t <;> rw [hv] at h <;> simp at h
  · intro v a ha hv
    unfold socialAuthenticate
    simp [ha, hv]
  · intro v a t ha hv
    unfold socialAuthenticate
    simp [ha, hv]

/-- C2 witness: the amended conjuncts at concrete requests — absent parameter,
unknown present token, and known present token. -/
theorem C2_amended_social_schemes_never_fail_witness :
    socialAuthenticate (fun _ => none) none = .noOpinion
    ∧ socialAuthenticate (fun _ => none) (some "zzz") ≠
      .failed (.authenticationFailed "Invalid token.")
    ∧ socialAuthenticate (fun _ => none) (some "zzz") = .noOpinion
    ∧ socialAuthenticate (fun _ => some socialTokMoved) (some "zzz") =
      .success (userEx, socialTokMoved) :=
  ⟨C2_amended_social_schemes_never_fail.2.1 (fun _ => none),
    C2_amended_social_schemes_never_fail.2.2.1 (fun _ => none) (some "zzz")
      (.authenticationFailed "Invalid token."),
    C2_amended_social_schemes_never_fail.2.2.2.1 (fun _ => none) "zzz" (by decide) rfl,
    C2_amended_social_schemes_never_fail.2.2.2.2 (fun _ => some socialTokMoved) "zzz"
      socialTokMoved (by decide) rfl⟩

/-- C3: for both schedule-export schemes, a token that passes generic
validation (found in the store, organization neither moved nor deleted) but
whose bound resource's public primary key differs from the `pk` in the request
path always fails with the resource-mismatch failure, never the generic
invalid-token failure; and a deactivated token that is otherwise valid and
resource-matched fails with the distinct deactivation failure — the two
failure reasons are never conflated. -/
theorem C3_export_token_mismatch_and_deactivation_distinct :
    (∀ (v : String → Option ScheduleExportAuthToken) (tok : String) (pk : Option String)
        (t : ScheduleExportAuthToken),
      v tok = some t → t.organization.is_moved = false → t.organization.deleted_at = none →
      some t.schedule.public_primary_key ≠ pk →
      ScheduleExportAuthentication.authenticate_credentials v tok pk =
        .failed (.authenticationFailed "Invalid schedule export token for schedule")
      ∧ ScheduleExportAuthentication.authenticate_credentials v tok pk ≠
        .failed (.authenticationFailed "Invalid token."))
    ∧ (∀ (v : String → Option ScheduleExportAuthToken) (tok : String) (pk : Option String)
        (t : ScheduleExportAuthToken),
      v tok = some t → t.organization.is_moved = false → t.organization.deleted_at = none →
      some t.schedule.public_primary_key = pk → t.active = false →
      ScheduleExportAuthentication.authenticate_credentials v tok pk =
        .failed (.authenticationFailed "Export token is deactivated"))
    ∧ (∀ (v : String → Option UserScheduleExportAuthToken) (tok : String) (pk : Option String)
        (t : UserScheduleExportAuthToken),
      v tok = some t → t.organization.is_moved = false → t.organization.deleted_at = none →
      some t.user.public_primary_key ≠ pk →
      UserScheduleExportAuthentication.authenticate_credentials v tok pk =
        .failed (.authenticationFailed "Invalid schedule export token for user")
      ∧ UserScheduleExportAuthentication.authenticate_credentials v tok pk ≠
        .failed (.authenticationFailed "Invalid token"))
    ∧ (∀ (v : String → Option UserScheduleExportAuthToken) (tok : String) (pk : Option String)
        (t : UserScheduleExportAuthToken),
      v tok = some t → t.organization.is_moved = false → t.organization.deleted_at = none →
      some t.user.public_primary_key = pk → t.active = false →
      UserScheduleExportAuthentication.authenticate_credentials v tok pk =
        .failed (.authenticationFailed "Export token is deactivated"))
    ∧ (AuthFailure.authenticationFailed "Invalid schedule export token for schedule" ≠
        .authenticationFailed "Export token is deactivated")
    ∧ (AuthFailure.authenticationFailed "Invalid schedule export token for user" ≠
        .authenticationFailed "Export token is deactivated") := by
  refine ⟨?_, ?_, ?_, ?_, by decide, by decide⟩
  · intro v tok pk t hv hm hd hpk
    unfold ScheduleExportAuthentication.authenticate_credentials
    rw [hv]
    simp [hm, hd, hpk]
  · intro v tok pk t hv hm hd hpk hact
    unfold ScheduleExportAuthentication.authenticate_credentials
    rw [hv]
    simp [hm, hd, hpk, hact]
  · intro v tok pk t hv hm hd hpk
    unfold UserScheduleExportAuthentication.authenticate_credentials
    rw [hv]
    simp [hm, hd, hpk]
  · intro v tok pk t hv hm hd hpk hact
    unfold UserScheduleExportAuthentication.authenticate_credentials
    rw [hv]
    simp [hm, hd, hpk, hact]

/-- Example schedule-export token on a healthy organization. -/
def schedTokOk : ScheduleExportAuthToken :=
  { user := userEx, organization := orgActive, schedule := { public_primary_key := "SPK" },
    active := true }

/-- Example deactivated schedule-export token on a healthy organization. -/
def schedTokInactive : ScheduleExportAuthToken := { schedTokOk with active := false }

/-- Example user-schedule-export token on a healthy organization. -/
def userSchedTokOk : UserScheduleExportAuthToken :=
  { user := userEx, organization := orgActive, active := true }

/-- Example deactivated user-schedule-export token. -/
def userSchedTokInactive : UserScheduleExportAuthToken := { userSchedTokOk with active := false }

/-- C3 witness: concrete mismatched and deactivated export tokens for both
schemes. -/
theorem C3_export_token_mismatch_and_deactivation_distinct_witness :
    (ScheduleExportAuthentication.authenticate_credentials (fun _ => some schedTokOk)
        "t" (some "OTHER") =
      .failed (.authenticationFailed "Invalid schedule export token for schedule")
      ∧ ScheduleExportAuthentication.authenticate_credentials (fun _ => some schedTokOk)
        "t" (some "OTHER") ≠ .failed (.authenticationFailed "Invalid token."))
    ∧ ScheduleExportAuthentication.authenticate_credentials (fun _ => some schedTokInactive)
        "t" (some "SPK") = .failed (.authenticationFailed "Export token is deactivated")
    ∧ (UserScheduleExportAuthentication.authenticate_credentials (fun _ => some userSchedTokOk)
        "t" (some "OTHER") =
      .failed (.authenticationFailed "Invalid schedule export token for user")
      ∧ UserScheduleExportAuthentication.authenticate_credentials (fun _ => some userSchedTokOk)
        "t" (some "OTHER") ≠ .failed (.authenticationFailed "Invalid token"))
    ∧ UserScheduleExportAuthentication.authenticate_credentials
        (fun _ => some userSchedTokInactive) "t" (some "UPK1") =
      .failed (.authenticationFailed "Export token is deactivated") :=
  ⟨C3_export_token_mismatch_and_deactivation_distinct.1 (fun _ => some schedTokOk)
      "t" (some "OTHER") schedTokOk rfl rfl rfl (by decide),
    C3_export_token_mismatch_and_deactivation_distinct.2.1 (fun _ => some schedTokInactive)
      "t" (some "SPK") schedTokInactive rfl rfl rfl (by decide) rfl,
    C3_export_token_mismatch_and_deactivation_distinct.2.2.1 (fun _ => some userSchedTokOk)
      "t" (some "OTHER") userSchedTokOk rfl rfl rfl (by decide),
    C3_export_token_mismatch_and_deactivation_distinct.2.2.2.1
      (fun _ => some userSchedTokInactive) "t" (some "UPK1") userSchedTokInactive
      rfl rfl rfl (by decide) rfl⟩

/-- C4 counterexample: a completely empty Authorization header does NOT yield
no opinion — `GrafanaServiceAccountAuthentication.authenticate` raises the
hard failure "Invalid token." before the service-account marker is even
examined. -/
theorem C4_counterexample_empty_header_hard_fails :
    (GrafanaServiceAccountAuthentication.authenticate envEx "" none none).1 =
      .failed (.authenticationFailed "Invalid token.")
    ∧ (GrafanaServiceAccountAuthentication.authenticate envEx "" none none).1 ≠
      .noOpinion := by
  exact ⟨by decide, by decide⟩

/-- C4 (amended): a NON-EMPTY Authorization header that does not start with
the service-account marker yields no opinion (so another scheme may run); a
completely empty header instead hard-fails with "Invalid token."; and a header
carrying the marker whose organization resolution returns no organization
fails with "Organization not found.". -/
theorem C4_amended_service_account_routing :
    (∀ (env : ServiceAccountEnv) (auth : String) (url iid : Option String),
      auth ≠ "" → strStartsWith auth GRAFANA_SA_MARKER = false →
      GrafanaServiceAccountAuthentication.authenticate env auth url iid = (.noOpinion, []))
    ∧ (∀ (env : ServiceAccountEnv) (url iid : Option String),
      GrafanaServiceAccountAuthentication.authenticate env "" url iid =
        (.failed (.authenticationFailed "Invalid token."), []))
    ∧ (∀ (env : ServiceAccountEnv) (auth : String) (url iid : Option String)
        (events : List ResolveEvent),
      strStartsWith auth GRAFANA_SA_MARKER = true →
      GrafanaServiceAccountAuthentication.get_organization env url iid auth =
        (.ok none, events) →
      GrafanaServiceAccountAuthentication.authenticate env auth url iid =
        (.failed (.authenticationFailed "Organization not found."), events)) := by
  refine ⟨?_, ?_, ?_⟩
  · intro env auth url iid hne hsw
    unfold GrafanaServiceAccountAuthentication.authenticate
    simp [hne, hsw]
  · intro env url iid
    unfold GrafanaServiceAccountAuthentication.authenticate
    simp
  · intro env auth url iid events hsw hres
    have hne : ¬ (auth = "") := by
      intro h
      rw [h] at hsw
      exact absurd hsw (by decide)
    unfold GrafanaServiceAccountAuthentication.authenticate
    simp [hne, hsw, hres]

/-- Example environment resolving no organization on any lookup mode. -/
def envExNoOrg : ServiceAccountEnv :=
  { envExMiss with org_by_stack_id := fun _ => none }

/-- C4 witness: a wrong-marker header skips, and a marker-carrying header with
an unresolvable organization fails with "Organization not found." (here the
cloud-mode stack-id lookup finds nothing). -/
theorem C4_amended_service_account_routing_witness :
    GrafanaServiceAccountAuthentication.authenticate envEx "Bearer xyz" none none =
      (.noOpinion, [])
    ∧ GrafanaServiceAccountAuthentication.authenticate envEx "" none none =
      (.failed (.authenticationFailed "Invalid token."), [])
    ∧ GrafanaServiceAccountAuthentication.authenticate envExNoOrg "glsa_x" none (some "s1") =
      (.failed (.authenticationFailed "Organization not found."), [.queryByStackId "s1"]) :=
  ⟨C4_amended_service_account_routing.1 envEx "Bearer xyz" none none (by decide) (by decide),
    C4_amended_service_account_routing.2.1 envEx none none,
    C4_amended_service_account_routing.2.2 envExNoOrg "glsa_x" none (some "s1")
      [.queryByStackId "s1"] (by decide) rfl⟩

/-- Recognizer for sync-trigger events. -/
def ResolveEvent.isTriggerSync : ResolveEvent → Bool
  | .triggerSync _ _ => true
  | _ => false

/-- Recognizer for by-url store queries. -/
def ResolveEvent.isQueryByUrl : ResolveEvent → Bool
  | .queryByUrl _ => true
  | _ => false

/-- C5: on an unresolved url lookup chain (valid url header, first store query
misses), `get_organization` issues exactly one sync trigger, re-queries the
store exactly once (two by-url queries in total), produces the same outcome
whatever the trigger call answered (ok or the 400/conflict of a concurrent
duplicate — the response is ignored), and, if the organization is still
absent, fails with the retryable throttled "being synced" signal, which is a
distinct constructor from every terminal authentication failure. -/
theorem C5_unknown_url_triggers_exactly_one_sync
    (env : ServiceAccountEnv) (gurl : String) (iid : Option String) (auth : String)
    (validated : String)
    (hgne : gurl ≠ "")
    (hval : env.validate_url gurl = some validated)
    (hmiss : env.orgs_by_url (rstripSlash validated) = none) :
    ((GrafanaServiceAccountAuthentication.get_organization env (some gurl) iid auth).2.filter
        ResolveEvent.isTriggerSync).length = 1
    ∧ ((GrafanaServiceAccountAuthentication.get_organization env (some gurl) iid auth).2.filter
        ResolveEvent.isQueryByUrl).length = 2
    ∧ (∀ b, GrafanaServiceAccountAuthentication.get_organization
          { env with setup_organization_ok := b } (some gurl) iid auth =
        GrafanaServiceAccountAuthentication.get_organization env (some gurl) iid auth)
    ∧ (env.orgs_by_url_after_sync (rstripSlash validated) = none →
        (GrafanaServiceAccountAuthentication.get_organization env (some gurl) iid auth).1 =
          .error (.throttled "Organization being synced, please retry.")
        ∧ (∀ d, (GrafanaServiceAccountAuthentication.get_organization env
            (some gurl) iid auth).1 ≠ .error (.authenticationFailed d))
        ∧ (∀ i, (GrafanaServiceAccountAuthentication.get_organization env
            (some gurl) iid auth).1 ≠ .error (.organizationMoved i))
        ∧ (∀ i, (GrafanaServiceAccountAuthentication.get_organization env
            (some gurl) iid auth).1 ≠ .error (.organizationDeleted i))) := by
  have hmain : ∀ e : ServiceAccountEnv, e.validate_url = env.validate_url →
      e.orgs_by_url = env.orgs_by_url →
      e.orgs_by_url_after_sync = env.orgs_by_url_after_sync →
      e.license_is_cloud = env.license_is_cloud →
      e.org_by_stack_id = env.org_by_stack_id →
      e.orgs_by_slug_pair = env.orgs_by_slug_pair →
      e.self_hosted_org_slug = env.self_hosted_org_slug →
      e.self_hosted_stack_slug = env.self_hosted_stack_slug →
      GrafanaServiceAccountAuthentication.get_organization e (some gurl) iid auth =
        GrafanaServiceAccountAuthentication.get_organization env (some gurl) iid auth := by
    intro e h1 h2 h3 h4 h5 h6 h7 h8
    unfold GrafanaServiceAccountAuthentication.get_organization
      GrafanaServiceAccountAuthentication.license_based_lookup
    rw [h1, h2, h3, h4, h5, h6, h7, h8]
  refine ⟨?_, ?_, ?_, ?_⟩
  · unfold GrafanaServiceAccountAuthentication.get_organization
    simp only [hgne, hval, hmiss]
    rcases h2 : env.orgs_by_url_after_sync (rstripSlash validated) with _ | org <;>
      simp [hgne, ResolveEvent.isTriggerSync, ResolveEvent.isQueryByUrl]
  · unfold GrafanaServiceAccountAuthentication.get_organization
    simp only [hgne, hval, hmiss]
    rcases h2 : env.orgs_by_url_after_sync (rstripSlash validated) with _ | org <;>
      simp [hgne, ResolveEvent.isTriggerSync, ResolveEvent.isQueryByUrl]
  · intro b
    exact hmain _ rfl rfl rfl rfl rfl rfl rfl rfl
  · intro hmiss2
    unfold GrafanaServiceAccountAuthentication.get_organization
    simp [hgne, hval, hmiss, hmiss2]

/-- C5 witness: a concrete environment where both url queries miss — one
trigger, two queries, trigger response irrelevant, throttled outcome. -/
theorem C5_unknown_url_triggers_exactly_one_sync_witness :
    ((GrafanaServiceAccountAuthentication.get_organization envExMiss
        (some "https://u.example.com/") none "glsa_x").2.filter
      ResolveEvent.isTriggerSync).length = 1
    ∧ ((GrafanaServiceAccountAuthentication.get_organization envExMiss
        (some "https://u.example.com/") none "glsa_x").2.filter
      ResolveEvent.isQueryByUrl).length = 2
    ∧ GrafanaServiceAccountAuthentication.get_organization
        { envExMiss with setup_organization_ok := false }
        (some "https://u.example.com/") none "glsa_x" =
      GrafanaServiceAccountAuthentication.get_organization envExMiss
        (some "https://u.example.com/") none "glsa_x"
    ∧ (GrafanaServiceAccountAuthentication.get_organization envExMiss
        (some "https://u.example.com/") none "glsa_x").1 =
      .error (.throttled "Organization being synced, please retry.")
    ∧ (GrafanaServiceAccountAuthentication.get_organization envExMiss
        (some "https://u.example.com/") none "glsa_x").1 ≠
      .error (.authenticationFailed "Invalid token.") := by
  have h := C5_unknown_url_triggers_exactly_one_sync envExMiss "https://u.example.com/"
    none "glsa_x" "https://u.example.com/" (by decide) rfl rfl
  exact ⟨h.1, h.2.1, h.2.2.1 false, (h.2.2.2 rfl).1, (h.2.2.2 rfl).2.1 "Invalid token."⟩

/-- The first element surviving `List.dropWhile p` does not satisfy `p`. -/
theorem head_of_dropWhile_not {α : Type} (p : α → Bool) :
    ∀ (l : List α) (c : α), (l.dropWhile p).head? = some c → p c = false := by
  intro l
  induction l with
  | nil =>
    intro c h
    simp [List.dropWhile] at h
  | cons a t ih =>
    intro c h
    rw [List.dropWhile_cons] at h
    by_cases hpa : p a
    · rw [if_pos hpa] at h
      exact ih c h
    · rw [if_neg hpa] at h
      obtain rfl : a = c := by simpa using h
      simpa using hpa

/-- C6 counterexample: with the platform-URL header present but failing
validation, resolution silently falls through to the instance-id mode and
even resolves an organization there — a malformed URL header is not a
rejection. -/
theorem C6_counterexample_malformed_url_falls_through :
    envEx.validate_url "bad" = none
    ∧ GrafanaServiceAccountAuthentication.get_organization envEx (some "bad")
        (some "stack1") "glsa_x" =
      (.ok (some orgActive), [.queryByStackId "stack1"]) := by
  exact ⟨rfl, rfl⟩

/-- C6 (amended): when the platform-URL header is present and the URL passes
validation, the resolver normalizes it by stripping every trailing slash and
looks the organization up by that stored URL (no other resolution mode runs);
when the header is present but the URL fails validation, resolution silently
falls through to the instance-id / static-slug modes instead of rejecting the
request. -/
theorem C6_amended_url_resolution
    (env : ServiceAccountEnv) (gurl : String) (iid : Option String) (auth : String)
    (validated : String) :
    (gurl ≠ "" → env.validate_url gurl = some validated →
      ∀ org, env.orgs_by_url (rstripSlash validated) = some org →
      GrafanaServiceAccountAuthentication.get_organization env (some gurl) iid auth =
        (.ok (some org), [.queryByUrl (rstripSlash validated)]))
    ∧ (gurl ≠ "" → env.validate_url gurl = none →
      GrafanaServiceAccountAuthentication.get_organization env (some gurl) iid auth =
        GrafanaServiceAccountAuthentication.license_based_lookup env iid)
    ∧ (∀ s : String, rstripSlash (s ++ "/") = rstripSlash s)
    ∧ (∀ (s : String) (c : Char), (rstripSlash s).data.getLast? = some c → c ≠ '/') := by
  refine ⟨?_, ?_, ?_, ?_⟩
  · intro hgne hval org hhit
    unfold GrafanaServiceAccountAuthentication.get_organization
    simp [hgne, hval, hhit]
  · intro hgne hval
    unfold GrafanaServiceAccountAuthentication.get_organization
    simp [hgne, hval]
  · intro s
    unfold rstripSlash
    congr 1
    have hd : (s ++ "/").data = s.data ++ ['/'] := by
      rw [String.data_append]
    rw [hd, List.reverse_append]
    simp [List.dropWhile_cons]
  · intro s c h
    unfold rstripSlash at h
    simp only [List.getLast?_reverse] at h
    have := head_of_dropWhile_not (fun x => x = '/') _ c h
    simpa using this

/-- C6 witness: a valid URL with a trailing slash resolves by the normalized
stored URL; the malformed URL "bad" falls through to the license-based
lookup; normalization drops trailing slashes. -/
theorem C6_amended_url_resolution_witness :
    GrafanaServiceAccountAuthentication.get_organization envEx
        (some "https://g.example.com/") none "glsa_x" =
      (.ok (some orgActive), [.queryByUrl "https://g.example.com"])
    ∧ GrafanaServiceAccountAuthentication.get_organization envEx (some "bad")
        (some "stack1") "glsa_x" =
      GrafanaServiceAccountAuthentication.license_based_lookup envEx (some "stack1")
    ∧ rstripSlash ("https://g.example.com" ++ "/") = rstripSlash "https://g.example.com"
    ∧ ('m' : Char) ≠ '/' := by
  have h := C6_amended_url_resolution envEx "https://g.example.com/" none "glsa_x"
    "https://g.example.com/"
  have h2 := C6_amended_url_resolution envEx "bad" (some "stack1") "glsa_x" "unused"
  refine ⟨?_, h2.2.1 (by decide) rfl, h.2.2.1 "https://g.example.com", ?_⟩
  · have := h.1 (by decide) rfl orgActive (by decide)
    simpa using this
  · exact h.2.2.2 "https://g.example.com/" 'm' (by decide)

/-- Example Grafana context carrying only an id unknown to the organization. -/
def ctxUnknownId : GrafanaContext :=
  { userId := some 99, userID := none, is_service_account := false, login := none }

/-- C7 counterexample: with an unresolvable platform user and the sync-context
header ABSENT (or malformed), the strict plugin variant fails with "User
context must be JSON dict." — not with the "Non-existent or anonymous user."
failure the claim names for this case. -/
theorem C7_counterexample_absent_sync_header_wrong_message :
    PluginAuthentication._get_user (fun _ => userEx) orgNoUsers (some ctxUnknownId)
        .absentOrMalformed =
      .error (.authenticationFailed "User context must be JSON dict.")
    ∧ (Except.error (AuthFailure.authenticationFailed "User context must be JSON dict.") :
        Except AuthFailure User) ≠
      Except.error (AuthFailure.authenticationFailed "Non-existent or anonymous user.") := by
  refine ⟨rfl, ?_⟩
  intro h
  simp at h

/-- C7 (amended): in the strict plugin variant, when the platform-user context
does not resolve to an existing user (by id, or by the Login fallback),
authentication never succeeds with no user: an EMPTY sync payload fails hard
with "Non-existent or anonymous user.", while an ABSENT or malformed
sync-context header fails hard with the malformed-context failure "User
context must be JSON dict."; the fallback never returns a success without a
synced user. -/
theorem C7_amended_missing_user_and_sync_payload_hard_fails :
    (∀ (g : SyncUser → User) (org : Organization) (ctx : GrafanaContext) (uid : Int),
      ctx.is_service_account = false →
      ctx.userId.orElse (fun _ => ctx.userID) = some uid →
      org.getUserById uid = none →
      PluginAuthentication._get_user g org (some ctx) .emptyDict =
        .error (.authenticationFailed "Non-existent or anonymous user.")
      ∧ PluginAuthentication._get_user g org (some ctx) .absentOrMalformed =
        .error (.authenticationFailed "User context must be JSON dict."))
    ∧ (∀ (g : SyncUser → User) (org : Organization) (ctx : GrafanaContext) (login : String),
      ctx.is_service_account = false →
      ctx.userId = none → ctx.userID = none → ctx.login = some login →
      org.getUserByUsername login = none →
      PluginAuthentication._get_user g org (some ctx) .emptyDict =
        .error (.authenticationFailed "Non-existent or anonymous user.")
      ∧ PluginAuthentication._get_user g org (some ctx) .absentOrMalformed =
        .error (.authenticationFailed "User context must be JSON dict."))
    ∧ (∀ (g : SyncUser → User) (h : UserSyncHeader) (u : User),
      h = .emptyDict ∨ h = .absentOrMalformed →
      PluginAuthentication.sync_user_fallback g h ≠ .ok u) := by
  refine ⟨?_, ?_, ?_⟩
  · intro g org ctx uid hsa horelse hlookup
    obtain ⟨u1, u2, sa, lg⟩ := ctx
    simp only [GrafanaContext.is_service_account] at hsa
    simp only [GrafanaContext.userId, GrafanaContext.userID] at horelse
    subst hsa
    constructor <;>
      simp [PluginAuthentication._get_user, horelse, hlookup,
        PluginAuthentication.sync_user_fallback]
  · intro g org ctx login hsa h1 h2 hlg hlookup
    obtain ⟨u1, u2, sa, lg⟩ := ctx
    simp only [GrafanaContext.is_service_account] at hsa
    simp only [GrafanaContext.userId] at h1
    simp only [GrafanaContext.userID] at h2
    simp only [GrafanaContext.login] at hlg
    subst hsa
    subst h1
    subst h2
    constructor <;>
      simp [PluginAuthentication._get_user, hlg, hlookup,
        PluginAuthentication.sync_user_fallback]
  · intro g h u hcase
    rcases hcase with rfl | rfl <;> simp [PluginAuthentication.sync_user_fallback]

/-- C7 witness: the amended failure messages at a concrete unresolvable
context. -/
theorem C7_amended_missing_user_and_sync_payload_hard_fails_witness :
    PluginAuthentication._get_user (fun _ => userEx) orgNoUsers (some ctxUnknownId)
        .emptyDict =
      .error (.authenticationFailed "Non-existent or anonymous user.")
    ∧ PluginAuthentication._get_user (fun _ => userEx) orgNoUsers (some ctxUnknownId)
        .absentOrMalformed =
      .error (.authenticationFailed "User context must be JSON dict.")
    ∧ PluginAuthentication.sync_user_fallback (fun _ => userEx) .emptyDict ≠ .ok userEx :=
  ⟨(C7_amended_missing_user_and_sync_payload_hard_fails.1 (fun _ => userEx) orgNoUsers
      ctxUnknownId 99 rfl rfl rfl).1,
    (C7_amended_missing_user_and_sync_payload_hard_fails.1 (fun _ => userEx) orgNoUsers
      ctxUnknownId 99 rfl rfl rfl).2,
    C7_amended_missing_user_and_sync_payload_hard_fails.2.2 (fun _ => userEx) .emptyDict
      userEx (Or.inl rfl)⟩

/-- C8: both key spellings are accepted as the user-id field by the tolerant
and the strict plugin variants ("UserId" is used when both keys are present);
with neither key, platform-user resolution is deterministic: the tolerant
variant yields no user (not a failure), while the strict variant attempts the
"Login" login-name fallback (a present Login key resolves by username) and,
with no Login key either, fails with the malformed-context failure "Grafana
context must specify a User or UserID.". -/
theorem C8_user_id_key_spellings_both_accepted :
    (∀ (org : Organization) (ctx : GrafanaContext) (uid : Int),
      ctx.userId = some uid → ctx.is_service_account = false →
      BasePluginAuthentication._get_user org (some ctx) = org.getUserById uid)
    ∧ (∀ (org : Organization) (ctx : GrafanaContext) (uid : Int),
      ctx.userId = none → ctx.userID = some uid → ctx.is_service_account = false →
      BasePluginAuthentication._get_user org (some ctx) = org.getUserById uid)
    ∧ (∀ (g : SyncUser → User) (org : Organization) (ctx : GrafanaContext) (uid : Int)
        (u : User) (sync : UserSyncHeader),
      ctx.is_service_account = false → ctx.userId = some uid →
      org.getUserById uid = some u →
      PluginAuthentication._get_user g org (some ctx) sync = .ok u)
    ∧ (∀ (g : SyncUser → User) (org : Organization) (ctx : GrafanaContext) (uid : Int)
        (u : User) (sync : UserSyncHeader),
      ctx.is_service_account = false → ctx.userId = none → ctx.userID = some uid →
      org.getUserById uid = some u →
      PluginAuthentication._get_user g org (some ctx) sync = .ok u)
    ∧ (∀ (org : Organization) (ctx : GrafanaContext),
      ctx.userId = none → ctx.userID = none →
      BasePluginAuthentication._get_user org (some ctx) = none)
    ∧ (∀ (g : SyncUser → User) (org : Organization) (ctx : GrafanaContext) (login : String)
        (u : User) (sync : UserSyncHeader),
      ctx.is_service_account = false → ctx.userId = none → ctx.userID = none →
      ctx.login = some login → org.getUserByUsername login = some u →
      PluginAuthentication._get_user g org (some ctx) sync = .ok u)
    ∧ (∀ (g : SyncUser → User) (org : Organization) (ctx : GrafanaContext)
        (sync : UserSyncHeader),
      ctx.is_service_account = false → ctx.userId = none → ctx.userID = none →
      ctx.login = none →
      PluginAuthentication._get_user g org (some ctx) sync =
        .error (.authenticationFailed "Grafana context must specify a User or UserID.")) := by
  refine ⟨?_, ?_, ?_, ?_, ?_, ?_, ?_⟩
  · intro org ctx uid h1 hsa
    obtain ⟨u1, u2, sa, lg⟩ := ctx
    simp only [GrafanaContext.userId] at h1
    simp only [GrafanaContext.is_service_account] at hsa
    subst h1
    subst hsa
    simp [BasePluginAuthentication._get_user]
  · intro org ctx uid h1 h2 hsa
    obtain ⟨u1, u2, sa, lg⟩ := ctx
    simp only [GrafanaContext.userId] at h1
    simp only [GrafanaContext.userID] at h2
    simp only [GrafanaContext.is_service_account] at hsa
    subst h1
    subst h2
    subst hsa
    simp [BasePluginAuthentication._get_user]
  · intro g org ctx uid u sync hsa h1 hfind
    obtain ⟨u1, u2, sa, lg⟩ := ctx
    simp only [GrafanaContext.userId] at h1
    simp only [GrafanaContext.is_service_account] at hsa
    subst h1
    subst hsa
    simp [PluginAuthentication._get_user, hfind]
  · intro g org ctx uid u sync hsa h1 h2 hfind
    obtain ⟨u1, u2, sa, lg⟩ := ctx
    simp only [GrafanaContext.userId] at h1
    simp only [GrafanaContext.userID] at h2
    simp only [GrafanaContext.is_service_account] at hsa
    subst h1
    subst h2
    subst hsa
    simp [PluginAuthentication._get_user, hfind]
  · intro org ctx h1 h2
    obtain ⟨u1, u2, sa, lg⟩ := ctx
    simp only [GrafanaContext.userId] at h1
    simp only [GrafanaContext.userID] at h2
    subst h1
    subst h2
    simp [BasePluginAuthentication._get_user]
  · intro g org ctx login u sync hsa h1 h2 hlg hfind
    obtain ⟨u1, u2, sa, lg⟩ := ctx
    simp only [GrafanaContext.userId] at h1
    simp only [GrafanaContext.userID] at h2
    simp only [GrafanaContext.login] at hlg
    simp only [GrafanaContext.is_service_account] at hsa
    subst h1
    subst h2
    subst hsa
    simp [PluginAuthentication._get_user, hlg, hfind]
  · intro g org ctx sync hsa h1 h2 hlg
    obtain ⟨u1, u2, sa, lg⟩ := ctx
    simp only [GrafanaContext.userId] at h1
    simp only [GrafanaContext.userID] at h2
    simp only [GrafanaContext.login] at hlg
    simp only [GrafanaContext.is_service_account] at hsa
    subst h1
    subst h2
    subst hlg
    subst hsa
    simp [PluginAuthentication._get_user]

/-- Example Grafana context carrying both user-id key spellings. -/
def ctxBothKeys : GrafanaContext :=
  { userId := some 1, userID := some 42, is_service_account := false, login := none }

/-- Example Grafana context carrying only the "UserID" spelling. -/
def ctxOnlyUpper : GrafanaContext :=
  { userId := none, userID := some 1, is_service_account := false, login := none }

/-- Example Grafana context with neither user-id key and no Login key. -/
def ctxNoKeys : GrafanaContext :=
  { userId := none, userID := none, is_service_account := false, login := none }

/-- Example Grafana context with neither user-id key but a Login key. -/
def ctxLoginOnly : GrafanaContext :=
  { userId := none, userID := none, is_service_account := false, login := some "alice" }

/-- C8 witness: concrete contexts — both spellings, either spelling alone,
neither key for both variants, and the Login fallback. -/
theorem C8_user_id_key_spellings_both_accepted_witness :
    BasePluginAuthentication._get_user orgActive (some ctxBothKeys) =
      orgActive.getUserById 1
    ∧ BasePluginAuthentication._get_user orgActive (some ctxOnlyUpper) =
      orgActive.getUserById 1
    ∧ PluginAuthentication._get_user (fun _ => userEx) orgActive (some ctxBothKeys)
        .emptyDict = .ok userEx
    ∧ PluginAuthentication._get_user (fun _ => userEx) orgActive (some ctxOnlyUpper)
        .emptyDict = .ok userEx
    ∧ BasePluginAuthentication._get_user orgActive (some ctxNoKeys) = none
    ∧ PluginAuthentication._get_user (fun _ => userEx) orgActive (some ctxLoginOnly)
        .emptyDict = .ok userEx
    ∧ PluginAuthentication._get_user (fun _ => userEx) orgActive (some ctxNoKeys)
        .emptyDict =
      .error (.authenticationFailed "Grafana context must specify a User or UserID.") :=
  ⟨C8_user_id_key_spellings_both_accepted.1 orgActive ctxBothKeys 1 rfl rfl,
    C8_user_id_key_spellings_both_accepted.2.1 orgActive ctxOnlyUpper 1 rfl rfl rfl,
    C8_user_id_key_spellings_both_accepted.2.2.1 (fun _ => userEx) orgActive ctxBothKeys
      1 userEx .emptyDict rfl rfl rfl,
    C8_user_id_key_spellings_both_accepted.2.2.2.1 (fun _ => userEx) orgActive ctxOnlyUpper
      1 userEx .emptyDict rfl rfl rfl rfl,
    C8_user_id_key_spellings_both_accepted.2.2.2.2.1 orgActive ctxNoKeys rfl rfl,
    C8_user_id_key_spellings_both_accepted.2.2.2.2.2.1 (fun _ => userEx) orgActive
      ctxLoginOnly "alice" userEx .emptyDict rfl rfl rfl rfl rfl,
    C8_user_id_key_spellings_both_accepted.2.2.2.2.2.2 (fun _ => userEx) orgActive
      ctxNoKeys .emptyDict rfl rfl rfl rfl⟩
